import Mathlib

/-!
Verification of the appleloglutgen LUT generator (main.go).

The Go program is embedded shallowly: float64 values are modelled as real
numbers, the Go int as an integer, and the fmt %.6f rendering as rounding to
six decimal digits followed by literal digit printing. Every definition
follows the corresponding function in main.go; the spec-side definitions
used for refinement are named with a spec prefix below.
-/

namespace AppleLogLUT

/-- Config record from main.go; the float64 fields are modelled as real
numbers and the Go int field as an integer. -/
structure Config where
  Size : ℤ
  RedTint : ℝ
  BlueTint : ℝ
  Output : String
  Look : String
  ExposureOffset : ℝ

/-- setDefaults from main.go: every zero-like field is replaced by its
default value, all other fields pass through unchanged. -/
noncomputable def setDefaults (c : Config) : Config :=
  { Size := if c.Size ≤ 0 then 17 else c.Size
    RedTint := if c.RedTint = 0 then 1.05 else c.RedTint
    BlueTint := if c.BlueTint = 0 then 0.95 else c.BlueTint
    Output := if c.Output = "" then "output.cube" else c.Output
    Look := if c.Look = "" then "none" else c.Look
    ExposureOffset := if c.ExposureOffset = 0 then 1.0 else c.ExposureOffset }

/-- appleLogToLinear from main.go: clip x times the exposure offset above
at 1, then raise to the power 1.5. -/
noncomputable def appleLogToLinear (x exposureOffset : ℝ) : ℝ :=
  (min (x * exposureOffset) 1) ^ (1.5 : ℝ)

/-- Models the Go statement sequence `if v > 1 then v = 1`. -/
noncomputable def clampHi (x : ℝ) : ℝ := if x > 1 then 1 else x

/-- Models the Go statement sequence `if v < 0 then v = 0`. -/
noncomputable def clampLo (x : ℝ) : ℝ := if x < 0 then 0 else x

/-- rec2020ToRec709 from main.go: the fixed 3x3 matrix rows are computed from
the unclipped inputs, then each channel is clipped below at 0 and above
at 1. -/
noncomputable def rec2020ToRec709 (r g b : ℝ) : ℝ × ℝ × ℝ :=
  let r709 := 1.660*r - 0.587*g - 0.073*b
  let g709 := -0.124*r + 1.132*g - 0.008*b
  let b709 := -0.018*r - 0.100*g + 1.118*b
  (clampHi (clampLo r709), clampHi (clampLo g709), clampHi (clampLo b709))

/-- rec709OETF from main.go. -/
noncomputable def rec709OETF (linear : ℝ) : ℝ :=
  if linear < 0.018 then 4.5 * linear
  else 1.099 * linear ^ (0.45 : ℝ) - 0.099

/-- applyTealOrange from main.go: branch on luminance of the incoming triple,
blend red and blue 70/30 with the modified values, blend green with itself,
then clip each channel above at 1. -/
noncomputable def applyTealOrange (r g b : ℝ) : ℝ × ℝ × ℝ :=
  let lum := 0.2126*r + 0.7152*g + 0.0722*b
  let blended :=
    if lum < 0.5 then
      (0.7*r + 0.3*(r*0.95), 0.7*g + 0.3*g, 0.7*b + 0.3*(b*1.1))
    else
      (0.7*r + 0.3*(r*1.1), 0.7*g + 0.3*g, 0.7*b + 0.3*(b*0.95))
  (clampHi blended.1, clampHi blended.2.1, clampHi blended.2.2)

/-- applyWarmVintage from main.go: warm tint on red and blue, 90/10 blend of
every channel toward mid gray, then clip each channel above at 1. -/
noncomputable def applyWarmVintage (r g b : ℝ) : ℝ × ℝ × ℝ :=
  let r1 := r * 1.05
  let b1 := b * 0.95
  let r2 := 0.9*r1 + 0.1*0.5
  let g2 := 0.9*g + 0.1*0.5
  let b2 := 0.9*b1 + 0.1*0.5
  (clampHi r2, clampHi g2, clampHi b2)

/-- Models strings.ToLower from the Go standard library for the ASCII look
selector strings used by the program. -/
def lowerStr (s : String) : String := ⟨s.data.map Char.toLower⟩

/-- The look dispatch switch inside the generateLUT loop in main.go, a switch
on the lowercased look string. -/
noncomputable def applyLook (look : String) (v : ℝ × ℝ × ℝ) : ℝ × ℝ × ℝ :=
  if lowerStr look = "tealorange" then applyTealOrange v.1 v.2.1 v.2.2
  else if lowerStr look = "warmvintage" then applyWarmVintage v.1 v.2.1 v.2.2
  else v

/-- The per-coordinate body of the generateLUT loop in main.go: normalize the
grid indices by size minus one, decode each channel, convert the gamut,
encode each channel with the OETF, then apply the selected look. -/
noncomputable def lutSample (size : ℤ) (exposureOffset : ℝ) (look : String)
    (i j k : ℕ) : ℝ × ℝ × ℝ :=
  let inR : ℝ := (i : ℝ) / ((size - 1 : ℤ) : ℝ)
  let inG : ℝ := (j : ℝ) / ((size - 1 : ℤ) : ℝ)
  let inB : ℝ := (k : ℝ) / ((size - 1 : ℤ) : ℝ)
  let linR := appleLogToLinear inR exposureOffset
  let linG := appleLogToLinear inG exposureOffset
  let linB := appleLogToLinear inB exposureOffset
  let conv := rec2020ToRec709 linR linG linB
  let encR := rec709OETF conv.1
  let encG := rec709OETF conv.2.1
  let encB := rec709OETF conv.2.2
  applyLook look (encR, encG, encB)

/-- The six decimal digits of a natural number below one million, most
significant digit first. -/
def frac6 (m : ℕ) : String :=
  ⟨[Nat.digitChar (m / 100000 % 10), Nat.digitChar (m / 10000 % 10),
    Nat.digitChar (m / 1000 % 10), Nat.digitChar (m / 100 % 10),
    Nat.digitChar (m / 10 % 10), Nat.digitChar (m % 10)]⟩

/-- Models the Go formatting verb %.6f on a real value: round to the nearest
multiple of one millionth, then print sign, integer part, a dot, and exactly
six fractional digits. Ties are rounded up; at every value this development
evaluates the rounding, no tie arises. -/
noncomputable def fmt6 (x : ℝ) : String :=
  let n : ℤ := ⌊x * 1000000 + 1/2⌋
  let sign : String := if n < 0 then "-" else ""
  let m : ℕ := n.natAbs
  sign ++ toString (m / 1000000) ++ "." ++ frac6 (m % 1000000)

/-- One data line written by generateLUT: three %.6f values separated by
single spaces and terminated by a newline. -/
noncomputable def lutLine (size : ℤ) (exposureOffset : ℝ) (look : String)
    (i j k : ℕ) : String :=
  let v := lutSample size exposureOffset look i j k
  fmt6 v.1 ++ " " ++ fmt6 v.2.1 ++ " " ++ fmt6 v.2.2 ++ "\n"

/-- Concatenation of a list of strings, used to describe the accumulated
builder content. -/
def strJoin : List String → String
  | [] => ""
  | s :: t => s ++ strJoin t

/-- The two header lines that generateLUT writes before the loop. -/
def lutHeader (size : ℤ) : String :=
  "# Generated Cinematic LUT for Apple Log to Rec.709 conversion\n" ++
    ("LUT_3D_SIZE " ++ toString size ++ "\n")

/-- generateLUT from main.go: the header comment and LUT_3D_SIZE line are
written first, then the triple nested loop, with i outermost and k innermost,
appends one formatted data line per grid coordinate to the builder. -/
noncomputable def generateLUT (cfg : Config) : String :=
  let n := cfg.Size.toNat
  (List.range n).foldl
    (fun acc i =>
      (List.range n).foldl
        (fun acc j =>
          (List.range n).foldl
            (fun acc k => acc ++ lutLine cfg.Size cfg.ExposureOffset cfg.Look i j k)
            acc)
        acc)
    (lutHeader cfg.Size)

/-- The data lines of the generated LUT, as a list in loop order. -/
noncomputable def dataLines (cfg : Config) : List String :=
  let n := cfg.Size.toNat
  (List.range n).flatMap fun i =>
    (List.range n).flatMap fun j =>
      (List.range n).map fun k => lutLine cfg.Size cfg.ExposureOffset cfg.Look i j k

/-- Spec stage 4.1 exactly as worded: the decode of x is the power 1.5 of x
times the exposure offset clipped above at 1. -/
noncomputable def specDecode (e x : ℝ) : ℝ := (min (x * e) 1) ^ (1.5 : ℝ)

/-- Spec stage 4.2 exactly as worded: the fixed matrix rows applied to the
unclamped inputs, each output channel then clamped to the unit interval. -/
noncomputable def specGamut (v : ℝ × ℝ × ℝ) : ℝ × ℝ × ℝ :=
  (max 0 (min (1.660*v.1 - 0.587*v.2.1 - 0.073*v.2.2) 1),
   max 0 (min (-0.124*v.1 + 1.132*v.2.1 - 0.008*v.2.2) 1),
   max 0 (min (-0.018*v.1 - 0.100*v.2.1 + 1.118*v.2.2) 1))

/-- Spec stage 4.3 exactly as worded. -/
noncomputable def specOETF (t : ℝ) : ℝ :=
  if t < 0.018 then 4.5 * t else 1.099 * t ^ (0.45 : ℝ) - 0.099

/-- The pipeline composition claimed by the spec: normalize the coordinate,
decode per channel, apply the gamut matrix with per-channel clamp, apply the
OETF per channel, then the grade selected by look. -/
noncomputable def specSample (cfg : Config) (i j k : ℕ) : ℝ × ℝ × ℝ :=
  let x : ℕ → ℝ := fun idx => (idx : ℝ) / ((cfg.Size : ℝ) - 1)
  let d := specGamut (specDecode cfg.ExposureOffset (x i),
                      specDecode cfg.ExposureOffset (x j),
                      specDecode cfg.ExposureOffset (x k))
  applyLook cfg.Look (specOETF d.1, specOETF d.2.1, specOETF d.2.2)

/-- The data line the spec predicts for the coordinate with indices i, j, k. -/
noncomputable def specLine (cfg : Config) (i j k : ℕ) : String :=
  let v := specSample cfg i j k
  fmt6 v.1 ++ " " ++ fmt6 v.2.1 ++ " " ++ fmt6 v.2.2 ++ "\n"

/-- A string made of some leading part, a dot, and exactly six decimal digit
characters: the shape of a %.6f rendering. -/
def sixDecimal (s : String) : Prop :=
  ∃ headStr fracStr : String, s = headStr ++ "." ++ fracStr ∧
    fracStr.length = 6 ∧ ∀ c ∈ fracStr.data, c.isDigit = true

/-- The configuration of end-to-end scenario 1 in the spec. -/
noncomputable def scenario1 : Config :=
  { Size := 2, RedTint := 1.05, BlueTint := 0.95,
    Output := "output.cube", Look := "none", ExposureOffset := 1 }

/-! Helper lemmas about the clips, the string builder and list indexing. -/

theorem clampHi_clampLo_eq (x : ℝ) : clampHi (clampLo x) = max 0 (min x 1) := by
  unfold clampHi clampLo
  split_ifs with h1 h2 h2 <;> simp [max_def, min_def] <;> split_ifs <;> linarith

theorem clampHi_le_one (x : ℝ) : clampHi x ≤ 1 := by
  unfold clampHi
  split_ifs with h
  · exact le_refl 1
  · linarith

theorem strJoin_append (a b : List String) : strJoin (a ++ b) = strJoin a ++ strJoin b := by
  induction a with
  | nil => simp [strJoin]
  | cons s t ih => simp [strJoin, ih, String.append_assoc]

theorem foldl_append_str {α : Type} (f : α → String) :
    ∀ (l : List α) (s : String),
      l.foldl (fun acc x => acc ++ f x) s = s ++ strJoin (l.map f) := by
  intro l
  induction l with
  | nil => intro s; simp [strJoin]
  | cons a t ih =>
    intro s
    simp only [List.foldl_cons, List.map_cons, strJoin, ih, String.append_assoc]

theorem strJoin_map_strJoin {α : Type} (g : α → List String) :
    ∀ l : List α, strJoin (l.map fun x => strJoin (g x)) = strJoin (l.flatMap g) := by
  intro l
  induction l with
  | nil => simp [strJoin]
  | cons a t ih => simp [strJoin, strJoin_append, ih]

theorem length_flatMap_const {α : Type} (f : ℕ → List α) (m : ℕ)
    (hm : ∀ i, (f i).length = m) :
    ∀ n : ℕ, ((List.range n).flatMap f).length = n * m := by
  intro n
  induction n with
  | zero => simp
  | succ n ih =>
    rw [List.range_succ, List.flatMap_append]
    simp [ih, hm, Nat.succ_mul]

theorem getElem?_flatMap_const {α : Type} (f : ℕ → List α) (m : ℕ)
    (hm : ∀ i, (f i).length = m) :
    ∀ (n a b : ℕ), a < n → b < m →
      ((List.range n).flatMap f)[a * m + b]? = (f a)[b]? := by
  intro n
  induction n with
  | zero => intro a b ha _; exact absurd ha (Nat.not_lt_zero a)
  | succ n ih =>
    intro a b ha hb
    rw [List.range_succ, List.flatMap_append]
    have hsing : [n].flatMap f = f n := by simp
    rcases Nat.lt_succ_iff_lt_or_eq.mp ha with hlt | heq
    · have hidx : a * m + b < ((List.range n).flatMap f).length := by
        rw [length_flatMap_const f m hm n]
        calc a * m + b < a * m + m := by omega
          _ = (a + 1) * m := by ring
          _ ≤ n * m := Nat.mul_le_mul_right m (by omega)
      rw [List.getElem?_append_left hidx]
      exact ih a b hlt hb
    · subst heq
      have hlen : ((List.range a).flatMap f).length ≤ a * m + b := by
        rw [length_flatMap_const f m hm a]
        omega
      rw [List.getElem?_append_right hlen, length_flatMap_const f m hm a,
        Nat.add_sub_cancel_left, hsing]

/-- The middle layer of dataLines has constant length. -/
theorem middle_length (cfg : Config) (i : ℕ) :
    ((List.range cfg.Size.toNat).flatMap fun j =>
      (List.range cfg.Size.toNat).map fun k =>
        lutLine cfg.Size cfg.ExposureOffset cfg.Look i j k).length =
      cfg.Size.toNat * cfg.Size.toNat := by
  exact length_flatMap_const _ _ (fun j => by simp) _

theorem dataLines_getElem? (cfg : Config) (i j k : ℕ)
    (hi : i < cfg.Size.toNat) (hj : j < cfg.Size.toNat) (hk : k < cfg.Size.toNat) :
    (dataLines cfg)[i * (cfg.Size.toNat * cfg.Size.toNat) + (j * cfg.Size.toNat + k)]? =
      some (lutLine cfg.Size cfg.ExposureOffset cfg.Look i j k) := by
  unfold dataLines
  have hjk : j * cfg.Size.toNat + k < cfg.Size.toNat * cfg.Size.toNat := by
    calc j * cfg.Size.toNat + k < j * cfg.Size.toNat + cfg.Size.toNat := by omega
      _ = (j + 1) * cfg.Size.toNat := by ring
      _ ≤ cfg.Size.toNat * cfg.Size.toNat := Nat.mul_le_mul_right _ (by omega)
  rw [getElem?_flatMap_const _ _ (fun i => middle_length cfg i) _ i _ hi hjk,
    getElem?_flatMap_const _ _ (fun j => by simp) _ j k hj hk]
  simp [List.getElem?_range hk]

theorem generateLUT_eq_join (cfg : Config) :
    generateLUT cfg = lutHeader cfg.Size ++ strJoin (dataLines cfg) := by
  unfold generateLUT dataLines
  simp only [foldl_append_str, strJoin_map_strJoin]

theorem rec2020_eq_specGamut (r g b : ℝ) :
    rec2020ToRec709 r g b = specGamut (r, g, b) := by
  simp only [rec2020ToRec709, specGamut, clampHi_clampLo_eq]

theorem lutSample_eq_specSample (cfg : Config) (i j k : ℕ) :
    lutSample cfg.Size cfg.ExposureOffset cfg.Look i j k = specSample cfg i j k := by
  have hc : ((cfg.Size - 1 : ℤ) : ℝ) = (cfg.Size : ℝ) - 1 := by push_cast; ring
  simp only [lutSample, specSample, appleLogToLinear, specDecode, rec709OETF, specOETF,
    rec2020_eq_specGamut, hc]

theorem lutLine_eq_specLine (cfg : Config) (i j k : ℕ) :
    lutLine cfg.Size cfg.ExposureOffset cfg.Look i j k = specLine cfg i j k := by
  unfold lutLine specLine
  rw [lutSample_eq_specSample]

/-! Evaluation lemmas used by the concrete scenario. -/

theorem fmt6_zero : fmt6 0 = "0.000000" := by
  unfold fmt6
  have h : ⌊(0:ℝ) * 1000000 + 1/2⌋ = 0 := by
    rw [Int.floor_eq_iff]
    norm_num
  rw [h]
  decide

theorem fmt6_one : fmt6 1 = "1.000000" := by
  unfold fmt6
  have h : ⌊(1:ℝ) * 1000000 + 1/2⌋ = 1000000 := by
    rw [Int.floor_eq_iff]
    norm_num
  rw [h]
  decide

theorem applyLook_none (v : ℝ × ℝ × ℝ) : applyLook "none" v = v := by
  unfold applyLook
  rw [if_neg (by decide), if_neg (by decide)]

theorem lutSample_zero : lutSample 2 1 "none" 0 0 0 = (0, 0, 0) := by
  have hdec : appleLogToLinear 0 1 = 0 := by
    unfold appleLogToLinear
    norm_num
  have hmat : rec2020ToRec709 0 0 0 = (0, 0, 0) := by
    unfold rec2020ToRec709 clampHi clampLo
    norm_num
  have hoetf : rec709OETF 0 = 0 := by
    unfold rec709OETF
    rw [if_pos (by norm_num)]
    ring
  unfold lutSample
  norm_num [hdec, hmat, hoetf, applyLook_none]

theorem lutSample_one : lutSample 2 1 "none" 1 1 1 = (1, 1, 1) := by
  have hdec : appleLogToLinear 1 1 = 1 := by
    unfold appleLogToLinear
    norm_num
  have hmat : rec2020ToRec709 1 1 1 = (1, 1, 1) := by
    unfold rec2020ToRec709 clampHi clampLo
    norm_num
  have hoetf : rec709OETF 1 = 1 := by
    unfold rec709OETF
    rw [if_neg (by norm_num)]
    norm_num
  unfold lutSample
  norm_num [hdec, hmat, hoetf, applyLook_none]

theorem lutLine_scenario1_zero :
    lutLine 2 1 "none" 0 0 0 = "0.000000 0.000000 0.000000\n" := by
  unfold lutLine
  rw [lutSample_zero]
  simp only [fmt6_zero]
  decide

theorem lutLine_scenario1_one :
    lutLine 2 1 "none" 1 1 1 = "1.000000 1.000000 1.000000\n" := by
  unfold lutLine
  rw [lutSample_one]
  simp only [fmt6_one]
  decide

/-! Shape facts about the fmt6 rendering. -/

theorem digitChar_mod_isDigit (d : ℕ) : (Nat.digitChar (d % 10)).isDigit = true := by
  have hall : ∀ e, e < 10 → (Nat.digitChar e).isDigit = true := by decide
  exact hall _ (Nat.mod_lt d (by norm_num))

theorem frac6_length (m : ℕ) : (frac6 m).length = 6 := rfl

theorem frac6_digits (m : ℕ) (c : Char) (hc : c ∈ (frac6 m).data) : c.isDigit = true := by
  have hc2 : c ∈ [Nat.digitChar (m / 100000 % 10), Nat.digitChar (m / 10000 % 10),
      Nat.digitChar (m / 1000 % 10), Nat.digitChar (m / 100 % 10),
      Nat.digitChar (m / 10 % 10), Nat.digitChar (m % 10)] := hc
  simp only [List.mem_cons, List.not_mem_nil, or_false] at hc2
  rcases hc2 with rfl | rfl | rfl | rfl | rfl | rfl <;> exact digitChar_mod_isDigit _

theorem fmt6_eq (x : ℝ) : fmt6 x =
    (if ⌊x * 1000000 + 1/2⌋ < 0 then "-" else "") ++
      toString (⌊x * 1000000 + 1/2⌋.natAbs / 1000000) ++ "." ++
      frac6 (⌊x * 1000000 + 1/2⌋.natAbs % 1000000) := rfl

theorem fmt6_sixDecimal (x : ℝ) : sixDecimal (fmt6 x) := by
  rw [fmt6_eq]
  exact ⟨(if ⌊x * 1000000 + 1/2⌋ < 0 then "-" else "") ++
      toString (⌊x * 1000000 + 1/2⌋.natAbs / 1000000),
    frac6 (⌊x * 1000000 + 1/2⌋.natAbs % 1000000), rfl, frac6_length _,
    frac6_digits _⟩

/-! Concrete configurations used by the witnesses. -/

/-- A config that explicitly requests a negative size and a zero exposure
offset. -/
noncomputable def cfgBad : Config :=
  { Size := -3, RedTint := 0, BlueTint := 0, Output := "", Look := "",
    ExposureOffset := 0 }

/-- A concrete config used by witnesses; differs from cfgTintB only in the
tint fields. -/
noncomputable def cfgTintA : Config :=
  { Size := 3, RedTint := 2, BlueTint := 3, Output := "o.cube", Look := "none",
    ExposureOffset := 1 }

/-- Same as cfgTintA except for the two tint fields. -/
noncomputable def cfgTintB : Config :=
  { Size := 3, RedTint := 7, BlueTint := 9, Output := "o.cube", Look := "none",
    ExposureOffset := 1 }

/-! The claims. -/

/-- C1: for every config with size at least 2, the generated text is the
header followed by the data lines in nested order, i outermost and k varying
fastest, and the data line at flat position i*size^2 + j*size + k carries the
fmt6 rendering of the spec pipeline: normalize by size minus one, log decode
per channel, the fixed gamut matrix with per-channel clamp, the Rec. 709 OETF
per channel, then the grade selected by look. -/
theorem c1_pipeline_and_order (cfg : Config) (h : 2 ≤ cfg.Size) :
    generateLUT cfg = lutHeader cfg.Size ++ strJoin (dataLines cfg) ∧
    ∀ i j k : ℕ, i < cfg.Size.toNat → j < cfg.Size.toNat → k < cfg.Size.toNat →
      (dataLines cfg)[i * cfg.Size.toNat ^ 2 + j * cfg.Size.toNat + k]? =
        some (specLine cfg i j k) := by
  refine ⟨generateLUT_eq_join cfg, ?_⟩
  intro i j k hi hj hk
  have hidx : i * cfg.Size.toNat ^ 2 + j * cfg.Size.toNat + k =
      i * (cfg.Size.toNat * cfg.Size.toNat) + (j * cfg.Size.toNat + k) := by ring
  rw [hidx, dataLines_getElem? cfg i j k hi hj hk, lutLine_eq_specLine]

/-- Witness for C1 at the scenario 1 config and coordinate (0,0,0). -/
theorem c1_pipeline_and_order_witness :
    generateLUT scenario1 = lutHeader scenario1.Size ++ strJoin (dataLines scenario1) ∧
    (dataLines scenario1)[0]? = some (specLine scenario1 0 0 0) := by
  obtain ⟨h1, h2⟩ := c1_pipeline_and_order scenario1 (by decide)
  refine ⟨h1, ?_⟩
  have h3 := h2 0 0 0 (by decide) (by decide) (by decide)
  simpa using h3

/-- C2: for every config with size at least 2, the generated document is
exactly one fixed comment line, the LUT_3D_SIZE header line, and size cubed
data lines, each made of three space-separated fmt6 values, each such value
carrying exactly six decimal digits, each line terminated by a newline, and
nothing else. -/
theorem c2_document_shape (cfg : Config) (h : 2 ≤ cfg.Size) :
    generateLUT cfg =
      "# Generated Cinematic LUT for Apple Log to Rec.709 conversion\n" ++
        ("LUT_3D_SIZE " ++ toString cfg.Size ++ "\n") ++ strJoin (dataLines cfg) ∧
    ((dataLines cfg).length : ℤ) = cfg.Size ^ 3 ∧
    ∀ l ∈ dataLines cfg, ∃ x y z : ℝ,
      l = fmt6 x ++ " " ++ fmt6 y ++ " " ++ fmt6 z ++ "\n" ∧
      sixDecimal (fmt6 x) ∧ sixDecimal (fmt6 y) ∧ sixDecimal (fmt6 z) := by
  refine ⟨?_, ?_, ?_⟩
  · rw [generateLUT_eq_join]
    rfl
  · have hlen : (dataLines cfg).length =
        cfg.Size.toNat * (cfg.Size.toNat * cfg.Size.toNat) := by
      unfold dataLines
      exact length_flatMap_const _ _ (middle_length cfg) _
    have hcast : ((cfg.Size.toNat : ℤ)) = cfg.Size := Int.toNat_of_nonneg (by linarith)
    rw [hlen]
    push_cast
    rw [hcast]
    ring
  · intro l hl
    unfold dataLines at hl
    simp only [List.mem_flatMap, List.mem_map, List.mem_range] at hl
    obtain ⟨i, _, j, _, k, _, rfl⟩ := hl
    exact ⟨(lutSample cfg.Size cfg.ExposureOffset cfg.Look i j k).1,
      (lutSample cfg.Size cfg.ExposureOffset cfg.Look i j k).2.1,
      (lutSample cfg.Size cfg.ExposureOffset cfg.Look i j k).2.2,
      rfl, fmt6_sixDecimal _, fmt6_sixDecimal _, fmt6_sixDecimal _⟩

/-- Witness for C2 at the scenario 1 config. -/
theorem c2_document_shape_witness :
    (2 : ℤ) ≤ scenario1.Size ∧
    ((dataLines scenario1).length : ℤ) = scenario1.Size ^ 3 :=
  ⟨by decide, (c2_document_shape scenario1 (by decide)).2.1⟩

/-- C3: for the config with size 2, look none and exposure offset 1, the
generator emits exactly 8 data lines, the header line reads LUT_3D_SIZE 2,
the line for coordinate (0,0,0) is three zero values and the line for
coordinate (1,1,1) is three one values. -/
theorem c3_scenario1 :
    generateLUT scenario1 = lutHeader scenario1.Size ++ strJoin (dataLines scenario1) ∧
    lutHeader scenario1.Size =
      "# Generated Cinematic LUT for Apple Log to Rec.709 conversion\n" ++
        "LUT_3D_SIZE 2\n" ∧
    (dataLines scenario1).length = 8 ∧
    (dataLines scenario1)[0]? = some "0.000000 0.000000 0.000000\n" ∧
    (dataLines scenario1)[7]? = some "1.000000 1.000000 1.000000\n" := by
  have hlist : dataLines scenario1 =
      [lutLine 2 1 "none" 0 0 0, lutLine 2 1 "none" 0 0 1,
       lutLine 2 1 "none" 0 1 0, lutLine 2 1 "none" 0 1 1,
       lutLine 2 1 "none" 1 0 0, lutLine 2 1 "none" 1 0 1,
       lutLine 2 1 "none" 1 1 0, lutLine 2 1 "none" 1 1 1] := by
    unfold dataLines
    have hr : List.range 2 = [0, 1] := by decide
    have hs : scenario1.Size = 2 := rfl
    have he : scenario1.ExposureOffset = 1 := rfl
    have hlook : scenario1.Look = "none" := rfl
    rw [hs, he, hlook]
    simp [hr]
  refine ⟨generateLUT_eq_join scenario1, by decide, ?_, ?_, ?_⟩
  · rw [hlist]
    rfl
  · rw [hlist]
    simp [lutLine_scenario1_zero]
  · rw [hlist]
    simp [lutLine_scenario1_one]

/-- C4: for every real input triple, each channel returned by the gamut
conversion lies in the unit interval and equals the clamp to the unit
interval of the corresponding fixed matrix row applied to the original,
pre-clamp inputs. -/
theorem c4_gamut_clip_after_matrix (r g b : ℝ) :
    (0 ≤ (rec2020ToRec709 r g b).1 ∧ (rec2020ToRec709 r g b).1 ≤ 1) ∧
    (0 ≤ (rec2020ToRec709 r g b).2.1 ∧ (rec2020ToRec709 r g b).2.1 ≤ 1) ∧
    (0 ≤ (rec2020ToRec709 r g b).2.2 ∧ (rec2020ToRec709 r g b).2.2 ≤ 1) ∧
    (rec2020ToRec709 r g b).1 = max 0 (min (1.660*r - 0.587*g - 0.073*b) 1) ∧
    (rec2020ToRec709 r g b).2.1 = max 0 (min (-0.124*r + 1.132*g - 0.008*b) 1) ∧
    (rec2020ToRec709 r g b).2.2 = max 0 (min (-0.018*r - 0.100*g + 1.118*b) 1) := by
  have hb : ∀ x : ℝ, 0 ≤ max 0 (min x 1) ∧ max 0 (min x 1) ≤ 1 := by
    intro x
    exact ⟨le_max_left 0 _, max_le (by norm_num) (min_le_right x 1)⟩
  simp only [rec2020ToRec709, clampHi_clampLo_eq]
  exact ⟨hb _, hb _, hb _, trivial, trivial, trivial⟩

/-- C5: for x in the unit interval and nonnegative exposure offset e, the
decode equals the power 1.5 of x times e clipped above at 1, and it is
monotonically non-decreasing in x for fixed e. -/
theorem c5_decode_formula_monotone (e x₁ x₂ : ℝ) (he : 0 ≤ e) (hx₁ : 0 ≤ x₁)
    (hx : x₁ ≤ x₂) (hx₂ : x₂ ≤ 1) :
    appleLogToLinear x₁ e = (min (x₁ * e) 1) ^ (1.5 : ℝ) ∧
    appleLogToLinear x₁ e ≤ appleLogToLinear x₂ e := by
  refine ⟨rfl, ?_⟩
  unfold appleLogToLinear
  exact Real.rpow_le_rpow (le_min (mul_nonneg hx₁ he) zero_le_one)
    (min_le_min (mul_le_mul_of_nonneg_right hx he) le_rfl) (by norm_num)

/-- Witness for C5 with e = 2 and x values one quarter and one half. -/
theorem c5_decode_formula_monotone_witness :
    appleLogToLinear (1/4) 2 = (min ((1/4 : ℝ) * 2) 1) ^ (1.5 : ℝ) ∧
    appleLogToLinear (1/4) 2 ≤ appleLogToLinear (1/2) 2 :=
  c5_decode_formula_monotone 2 (1/4) (1/2) (by norm_num) (by norm_num)
    (by norm_num) (by norm_num)

/-- C6 counterexample: at input (0, 2, 0) the tealorange grade returns green
1 rather than the input green 2, because the final clip above at 1 also
applies to green; the claim fails for an input triple with green above 1. -/
theorem c6_green_counterexample : (applyTealOrange 0 2 0).2.1 ≠ 2 := by
  norm_num [applyTealOrange, clampHi]

/-- C6 amended: for every input triple whose green channel is at most 1, the
tealorange grade returns the original input green exactly, since the 70/30
blend of green with itself is the identity and the clip does not fire. -/
theorem c6_green_preserved (r g b : ℝ) (hg : g ≤ 1) :
    (applyTealOrange r g b).2.1 = g := by
  have hgg : 0.7 * g + 0.3 * g = g := by ring
  by_cases hl : 0.2126*r + 0.7152*g + 0.0722*b < 0.5
  · simp only [applyTealOrange, if_pos hl]
    show clampHi (0.7 * g + 0.3 * g) = g
    rw [hgg]
    unfold clampHi
    rw [if_neg (by linarith)]
  · simp only [applyTealOrange, if_neg hl]
    show clampHi (0.7 * g + 0.3 * g) = g
    rw [hgg]
    unfold clampHi
    rw [if_neg (by linarith)]

/-- Witness for the amended C6 at input (0, one half, 0). -/
theorem c6_green_preserved_witness :
    (1 : ℝ)/2 ≤ 1 ∧ (applyTealOrange 0 (1/2) 0).2.1 = 1/2 :=
  ⟨by norm_num, c6_green_preserved 0 (1/2) 0 (by norm_num)⟩

/-- C7: two configs that agree on all fields except RedTint and BlueTint
produce identical LUT text; the tint fields are never consumed. -/
theorem c7_tints_unused (c₁ c₂ : Config) (hs : c₁.Size = c₂.Size)
    (ho : c₁.Output = c₂.Output) (hl : c₁.Look = c₂.Look)
    (he : c₁.ExposureOffset = c₂.ExposureOffset) :
    generateLUT c₁ = generateLUT c₂ := by
  simp only [generateLUT, hs, hl, he]

/-- Witness for C7: two concrete configs differing only in the tints. -/
theorem c7_tints_unused_witness : generateLUT cfgTintA = generateLUT cfgTintB :=
  c7_tints_unused cfgTintA cfgTintB rfl rfl rfl rfl

/-- The look dispatch depends only on the lowercased selector. -/
theorem applyLook_congr (s t : String) (h : lowerStr s = lowerStr t) :
    applyLook s = applyLook t := by
  funext v
  unfold applyLook
  rw [h]

/-- An unrecognized lowercased selector dispatches exactly like none. -/
theorem applyLook_default (s : String) (h1 : lowerStr s ≠ "tealorange")
    (h2 : lowerStr s ≠ "warmvintage") : applyLook s = applyLook "none" := by
  funext v
  unfold applyLook
  rw [if_neg h1, if_neg h2, if_neg (by decide), if_neg (by decide)]

/-- generateLUT output depends on the look only through the dispatch. -/
theorem generateLUT_look_congr (cfg : Config) (s t : String)
    (h : applyLook s = applyLook t) :
    generateLUT { cfg with Look := s } = generateLUT { cfg with Look := t } := by
  simp only [generateLUT, lutLine, lutSample, h]

/-- C8: look selection is case-insensitive, and every look string whose
lowercase form is neither tealorange nor warmvintage yields output identical
to look none. -/
theorem c8_look_selection :
    (∀ (cfg : Config) (s t : String), lowerStr s = lowerStr t →
        generateLUT { cfg with Look := s } = generateLUT { cfg with Look := t }) ∧
    (∀ (cfg : Config) (s : String), lowerStr s ≠ "tealorange" →
        lowerStr s ≠ "warmvintage" →
        generateLUT { cfg with Look := s } = generateLUT { cfg with Look := "none" }) :=
  ⟨fun cfg s t h => generateLUT_look_congr cfg s t (applyLook_congr s t h),
   fun cfg s h1 h2 => generateLUT_look_congr cfg s "none" (applyLook_default s h1 h2)⟩

/-- Witness for C8 at the selectors NONE and sepia. -/
theorem c8_look_selection_witness :
    generateLUT { cfgTintA with Look := "NONE" } =
        generateLUT { cfgTintA with Look := "none" } ∧
    generateLUT { cfgTintA with Look := "sepia" } =
        generateLUT { cfgTintA with Look := "none" } :=
  ⟨c8_look_selection.1 cfgTintA "NONE" "none" (by decide),
   c8_look_selection.2 cfgTintA "sepia" (by decide) (by decide)⟩

/-- C9: for every input triple in the unit cube, no channel returned by the
tealorange or warmvintage grade exceeds 1. -/
theorem c9_grades_bounded (r g b : ℝ) (h0r : 0 ≤ r) (h1r : r ≤ 1) (h0g : 0 ≤ g)
    (h1g : g ≤ 1) (h0b : 0 ≤ b) (h1b : b ≤ 1) :
    (applyTealOrange r g b).1 ≤ 1 ∧ (applyTealOrange r g b).2.1 ≤ 1 ∧
    (applyTealOrange r g b).2.2 ≤ 1 ∧ (applyWarmVintage r g b).1 ≤ 1 ∧
    (applyWarmVintage r g b).2.1 ≤ 1 ∧ (applyWarmVintage r g b).2.2 ≤ 1 := by
  unfold applyTealOrange applyWarmVintage
  exact ⟨clampHi_le_one _, clampHi_le_one _, clampHi_le_one _,
    clampHi_le_one _, clampHi_le_one _, clampHi_le_one _⟩

/-- Witness for C9 at the center of the unit cube. -/
theorem c9_grades_bounded_witness :
    (applyTealOrange (1/2) (1/2) (1/2)).1 ≤ 1 ∧
    (applyTealOrange (1/2) (1/2) (1/2)).2.1 ≤ 1 ∧
    (applyTealOrange (1/2) (1/2) (1/2)).2.2 ≤ 1 ∧
    (applyWarmVintage (1/2) (1/2) (1/2)).1 ≤ 1 ∧
    (applyWarmVintage (1/2) (1/2) (1/2)).2.1 ≤ 1 ∧
    (applyWarmVintage (1/2) (1/2) (1/2)).2.2 ≤ 1 :=
  c9_grades_bounded (1/2) (1/2) (1/2) (by norm_num) (by norm_num) (by norm_num)
    (by norm_num) (by norm_num) (by norm_num)

/-- C10: default substitution replaces any non-positive size, negative sizes
included, with 17, and replaces a zero exposure offset with 1; consequently
after defaulting the size is always positive and the exposure offset never
zero, so generateLUT is never reached with a zero exposure offset or a
non-positive size. -/
theorem c10_defaults (c : Config) :
    (c.Size ≤ 0 → (setDefaults c).Size = 17) ∧
    (c.ExposureOffset = 0 → (setDefaults c).ExposureOffset = 1) ∧
    0 < (setDefaults c).Size ∧ (setDefaults c).ExposureOffset ≠ 0 := by
  refine ⟨fun h => ?_, fun h => ?_, ?_, ?_⟩
  · simp only [setDefaults, if_pos h]
  · simp only [setDefaults, if_pos h]
    norm_num
  · simp only [setDefaults]
    split_ifs with h
    · norm_num
    · omega
  · simp only [setDefaults]
    split_ifs with h
    · norm_num
    · exact h

/-- Witness for C10 at a config with size -3 and exposure offset 0. -/
theorem c10_defaults_witness :
    (setDefaults cfgBad).Size = 17 ∧ (setDefaults cfgBad).ExposureOffset = 1 :=
  ⟨(c10_defaults cfgBad).1 (by decide), (c10_defaults cfgBad).2.1 rfl⟩

end AppleLogLUT
